import Mathlib

/-!
Verification of the Agentic-PPT2Speech pipeline (a PPT-to-narrated-video
converter) against its natural-language specification.

The development shallowly embeds the Python sources:
  * `src/core/transcript_generator/transcript_generator.py`
    (batch-response parsing, individual-generation fallback),
  * `src/core/pipeline/ppt_to_video_pipeline.py`
    (batched transcript orchestration, minimum-length repair, fallback
    templates, the speech stage, and the image/audio alignment handed to
    the video compositor),
  * `src/core/speech_generation/speech_generation.py`
    (request preparation and its voice validation),
  * `src/core/video_generator/video_synthesizer_simple.py`
    (the count-mismatch guard and the ffmpeg call sequence),
  * `src/configs/pipeline_config.py` and `src/run_pipeline.py`
    (configuration validation and the pre-run gate).

External collaborators (the vision model, the JSON decoder of the Python
standard library, the TTS service, the file system, ffmpeg) are modelled
as explicit oracle parameters; every definition is executable so concrete
runs can be evaluated inside proofs.
-/

/-- A Python/JSON value, as produced by the standard library `json.loads`.
Floats never occur in the claims' scenarios and are omitted. -/
inductive PyJson where
  | null
  | bool (b : Bool)
  | int (n : Int)
  | str (s : String)
  | list (xs : List PyJson)
  | dict (kvs : List (String × PyJson))

/-- One narration entry, Python dict
`\x7b"slide_number": ..., "transcript": ...\x7d`.  The code stores whatever
values the decoded JSON carried, so both fields are arbitrary `PyJson`. -/
structure Narr where
  slide_number : PyJson
  transcript : PyJson

/-- Characters for which Python `str.isspace()` holds (the set stripped by
`str.strip()` with no argument). -/
def isPySpace (c : Char) : Bool :=
  c == ' ' || c == '\t' || c == '\n' || c == '\r' || c == '\x0b' || c == '\x0c' ||
  c == '\x1c' || c == '\x1d' || c == '\x1e' || c == '\x1f' ||
  c == '\u0085' || c == '\u00a0' || c == '\u1680' ||
  ('\u2000' ≤ c && c ≤ '\u200a') ||
  c == '\u2028' || c == '\u2029' || c == '\u202f' || c == '\u205f' || c == '\u3000'

/-- Python `str.lstrip()` on a character list. -/
def lstripChars (l : List Char) : List Char := l.dropWhile isPySpace

/-- Python `str.rstrip()` on a character list. -/
def rstripChars (l : List Char) : List Char :=
  (l.reverse.dropWhile isPySpace).reverse

/-- Python `str.strip()` on a character list. -/
def stripChars (l : List Char) : List Char := rstripChars (lstripChars l)

/-- Python `str.strip()`. -/
def pyStripStr (s : String) : String := ⟨stripChars s.data⟩

/-- Python `str.lstrip()`. -/
def pyLStripStr (s : String) : String := ⟨lstripChars s.data⟩

/-- Helper for Python `str.find`: first index `≥ i` at which `pat` occurs in
`hay`, scanning left to right. -/
def findIn (pat : List Char) : List Char → Nat → Option Nat
  | [], i => if pat.isEmpty then some i else none
  | c :: t, i => if pat.isPrefixOf (c :: t) then some i else findIn pat t (i + 1)

/-- Python `hay.find(pat, start)`; `none` models the `-1` result. -/
def pyFind (hay pat : List Char) (start : Nat) : Option Nat :=
  (findIn pat (hay.drop start) 0).map (· + start)

/-- Python `pat in hay` substring test. -/
def containsSub (hay pat : String) : Bool := (pyFind hay.data pat.data 0).isSome

/-- Fuel-indexed worker for Python `str.replace(old, "")`: removes the
non-overlapping occurrences of `pat` left to right.  The fuel is the length
of the scanned list, which bounds the number of steps. -/
def removeAllGo (pat : List Char) : Nat → List Char → List Char
  | 0, l => l
  | fuel + 1, l =>
    match l with
    | [] => []
    | c :: t =>
      if !pat.isEmpty && pat.isPrefixOf (c :: t) then
        removeAllGo pat fuel ((c :: t).drop pat.length)
      else c :: removeAllGo pat fuel t

/-- Python `hay.replace(pat, "")`. -/
def removeAll (hay pat : List Char) : List Char := removeAllGo pat hay.length hay

/-- Python `len(...)` on a JSON value; `none` models the `TypeError` raised
for values without a length. -/
def pyLen : PyJson → Option Nat
  | .str s => some s.length
  | .list xs => some xs.length
  | .dict kvs => some kvs.length
  | _ => none

mutual

/-- Model of CPython `repr` for decoded-JSON values (string quoting
approximated with single quotes; the non-string cases are never reached by
the claims, whose narrations are strings). -/
def pyRepr : PyJson → String
  | .null => "None"
  | .bool true => "True"
  | .bool false => "False"
  | .int n => toString n
  | .str s => "\x27" ++ s ++ "\x27"
  | .list xs => "[" ++ pyReprList xs ++ "]"
  | .dict kvs => "\x7b" ++ pyReprKVs kvs ++ "\x7d"

/-- Comma-separated `repr` of the elements of a Python list. -/
def pyReprList : List PyJson → String
  | [] => ""
  | [x] => pyRepr x
  | x :: y :: xs => pyRepr x ++ ", " ++ pyReprList (y :: xs)

/-- Comma-separated `repr` of the entries of a Python dict. -/
def pyReprKVs : List (String × PyJson) → String
  | [] => ""
  | [kv] => "\x27" ++ kv.1 ++ "\x27: " ++ pyRepr kv.2
  | kv :: kw :: xs =>
    "\x27" ++ kv.1 ++ "\x27: " ++ pyRepr kv.2 ++ ", " ++ pyReprKVs (kw :: xs)

end

/-- Model of CPython `str(value)` as used by f-string interpolation. -/
def pyStrOf (v : PyJson) : String :=
  match v with
  | .str s => s
  | v => pyRepr v

/-- Python truthiness of an optional string (`None` and `""` are falsy). -/
def truthyO : Option String → Bool
  | none => false
  | some s => !(s == "")

/-- The padding entry appended by `_parse_batch_response` when the decoded
list has fewer entries than requested (`transcript_generator.py:400-406`). -/
def placeholderNarr (k : Nat) : Narr :=
  ⟨.int k, .str ("[错误：未能生成第" ++ toString k ++ "页的讲稿]")⟩

/-- Python dict lookup `item[k]` (last occurrence wins, matching the dicts
produced by `json.loads`). -/
def pyDictGet (kvs : List (String × PyJson)) (k : String) : Option PyJson :=
  (kvs.reverse.find? (fun kv => kv.1 == k)).map (fun kv => kv.2)

/-- Validation of one decoded item in `_parse_batch_response`
(`transcript_generator.py:393-398`): a dict containing both a
`"slide_number"` and a `"transcript"` key is projected onto those two keys,
anything else is skipped. -/
def validItem : PyJson → Option Narr
  | .dict kvs =>
    match pyDictGet kvs ("slide_number"), pyDictGet kvs ("transcript") with
    | some sn, some tr => some ⟨sn, tr⟩
    | _, _ => none
  | _ => none

/-- Total projection of a conforming item, used to state theorems. -/
def projectItem (v : PyJson) : Narr := (validItem v).getD ⟨.null, .null⟩

/-- Fuel-indexed model of the `while len(validated) < expected` padding loop
of `_parse_batch_response` (`transcript_generator.py:401-406`): each
iteration appends one placeholder, so `n - xs.length` iterations suffice. -/
def padGo (n : Nat) : Nat → List Narr → List Narr
  | 0, xs => xs
  | fuel + 1, xs =>
    if xs.length < n then padGo n fuel (xs ++ [placeholderNarr (xs.length + 1)])
    else xs

/-- The marker-based entry for slide `i` in the plain-text fallback branch
of `_parse_batch_response` (`transcript_generator.py:420-440`). -/
def markerEntry (r : String) (i : Nat) : Narr :=
  let useCh := containsSub r ("第1页")
  let marker := if useCh then "第" ++ toString i ++ "页" else "Slide " ++ toString i
  let nextMarker :=
    if useCh then "第" ++ toString (i + 1) ++ "页" else "Slide " ++ toString (i + 1)
  match pyFind r.data marker.data 0 with
  | none => ⟨.int i, .str ("[错误：未能解析第" ++ toString i ++ "页的讲稿]")⟩
  | some start =>
    let content :=
      match pyFind r.data nextMarker.data start with
      | some e => (r.data.drop start).take (e - start)
      | none => r.data.drop start
    let content := stripChars (removeAll content marker.data)
    let content :=
      if content.contains '\n' then stripChars (content.takeWhile (fun c => !(c == '\n')))
      else content
    ⟨.int i, .str ⟨content.take 500⟩⟩

/-- The fallback branch of `_parse_batch_response` for responses that failed
to decode (`transcript_generator.py:414-449`): marker-based splitting when a
first-slide marker occurs anywhere in the text, otherwise one static error
narration per requested slide. -/
def parseFallback (r : String) (n : Nat) : List Narr :=
  if containsSub r ("第1页") || containsSub r ("Slide 1") then
    (List.range n).map (fun j => markerEntry r (j + 1))
  else
    (List.range n).map (fun j =>
      ⟨.int (Int.ofNat (j + 1)), .str ("[错误：批量生成失败，请尝试单独生成]")⟩)

/-- `TranscriptGenerator._parse_batch_response`
(`transcript_generator.py:381-449`).  `jloads` models the standard-library
`json.loads` applied to the response (`none` = raises
`json.JSONDecodeError`).  A decoded non-list raises `ValueError`, which the
same `except` clause catches, so it reaches the same fallback branch. -/
def parseBatchResponse (jloads : String → Option PyJson) (r : String) (n : Nat) :
    List Narr :=
  match jloads r with
  | some (.list items) =>
    let validated := items.filterMap validItem
    (padGo n (n - validated.length) validated).take n
  | some _ => parseFallback r n
  | none => parseFallback r n

/-- The per-slide error placeholder of
`_generate_individual_transcripts` (`transcript_generator.py:230-235`). -/
def individualPlaceholder (i : Nat) : String :=
  "[错误：无法生成第" ++ toString i ++ "页的讲稿]"

/-- `TranscriptGenerator._generate_individual_transcripts`
(`transcript_generator.py:202-237`): one model call per slide, numbering the
slides `1..n` within the call; a slide whose every attempt raises
(`singles i = none`) yields the per-slide error placeholder. -/
def individualTranscripts (singles : Nat → Option String) (n : Nat) : List Narr :=
  (List.range n).map (fun j =>
    let i := j + 1
    match singles i with
    | some content => ⟨.int i, .str (pyStripStr content)⟩
    | none => ⟨.int i, .str (individualPlaceholder i)⟩)

/-- `TranscriptGenerator.generate_transcript`
(`transcript_generator.py:52-98`): try the batched call (`batched = some
content` models the reply of `_generate_batch_transcripts` before its
`.strip()`; `none` models an exception after retries), falling back to
individual generation when the batched path raises. -/
def generateTranscriptModel (jloads : String → Option PyJson)
    (batched : Option String) (singles : Nat → Option String) (n : Nat) : List Narr :=
  match batched with
  | some content => parseBatchResponse jloads (pyStripStr content) n
  | none => individualTranscripts singles n

/-- The "first slide" template of `PPTToVideoPipeline._get_fallback_transcript`
(`ppt_to_video_pipeline.py:383-387`). -/
def firstSlideTemplate : String :=
  "欢迎大家来到今天的技术分享会。我将为大家介绍本次演讲的主题内容。\n这是一个非常有价值的话题，涉及到当前技术发展的重要方向。\n在接下来的时间里，我们将一起探讨相关的概念、方法和实践经验。\n希望通过这次分享，能够为大家带来新的思考和启发。"

/-- The "last slide" template of `_get_fallback_transcript`
(`ppt_to_video_pipeline.py:389-394`). -/
def lastSlideTemplate : String :=
  "这就是今天要分享的全部内容。通过前面的讲解，\n我们系统地了解了相关的理论知识和实践方法。\n希望这些内容能够帮助大家在实际工作中更好地应用这些技术。\n如果大家有任何疑问或想要深入讨论的地方，欢迎随时提出。\n感谢大家的时间和关注，祝大家工作顺利！"

/-- The "middle slide" template of `_get_fallback_transcript`
(`ppt_to_video_pipeline.py:396-401`). -/
def middleSlideTemplate (slide_num : Nat) : String :=
  "现在我们来看第" ++ toString slide_num ++ "页的内容。这一页展示了非常重要的概念和信息。\n让我们仔细分析页面上的每个要点，理解它们之间的关联和意义。\n这些内容与我们之前讨论的主题紧密相关，是整体知识框架中不可或缺的一部分。\n通过深入理解这些概念，我们能够更好地把握技术的本质和应用方向。\n请大家注意这里的关键信息，它们将在后续的内容中发挥重要作用。"

/-- `PPTToVideoPipeline._get_fallback_transcript`
(`ppt_to_video_pipeline.py:381-401`). -/
def fallbackTranscript (slide_num total_slides : Nat) : String :=
  if slide_num == 1 then firstSlideTemplate
  else if slide_num == total_slides then lastSlideTemplate
  else middleSlideTemplate slide_num

/-- The filler paragraph of the opening-slide band of
`PPTToVideoPipeline._enhance_transcript` (`ppt_to_video_pipeline.py:414-421`). -/
def openingFiller : String :=
  "各位朋友，欢迎大家参加今天的分享。在开始之前，我想先简要介绍一下今天演讲的背景和目的。\n我们将深入探讨这个主题的各个方面，从基础概念到实际应用，力求为大家提供全面而深入的理解。\n在接下来的内容中，我会通过具体的案例和详细的分析，帮助大家更好地掌握相关知识。\n让我们一起开始这段学习之旅。"

/-- The filler paragraph of the closing-slide band
(`ppt_to_video_pipeline.py:422-433`). -/
def closingFiller : String :=
  "到这里，我们的分享就接近尾声了。让我们回顾一下今天讨论的主要内容。\n通过这次演讲，我们深入了解了相关的理论基础和实践方法，\n探讨了如何将这些知识应用到实际工作中，以及未来的发展方向。\n希望今天的分享能够对大家有所启发，帮助大家在各自的领域取得更好的成果。\n如果大家有任何问题或想进一步交流，请随时与我联系。\n再次感谢大家的参与和支持！"

/-- The filler paragraph of the early-slides band
(`ppt_to_video_pipeline.py:434-444`). -/
def earlyFiller : String :=
  "在这一部分，我们将建立对这个主题的基础理解。\n这些概念虽然看似简单，但它们是理解后续内容的关键基础。\n让我们仔细分析每个要点，确保大家都能够充分理解。\n这将为我们后面的深入讨论打下坚实的基础。\n请大家注意这些关键概念之间的联系，它们共同构成了我们理解这个领域的框架。"

/-- The filler paragraph of the middle-slides band
(`ppt_to_video_pipeline.py:445-456`). -/
def middleFiller : String :=
  "现在让我们深入探讨这个话题的核心内容。\n这一页展示的信息非常关键，它直接关系到我们如何理解和应用相关技术。\n我想通过几个具体的例子来说明这些概念的实际意义。\n大家可以看到，这里的每个要点都有其独特的价值和应用场景。\n让我们逐一分析，看看它们如何相互配合，形成一个完整的解决方案。\n这种系统性的理解对于我们掌握整体框架至关重要。"

/-- The filler paragraph of the late-slides band
(`ppt_to_video_pipeline.py:457-468`). -/
def lateFiller : String :=
  "基于前面的讨论，我们现在可以看到更完整的图景。\n这些内容不仅总结了我们之前探讨的要点，还指出了未来的发展方向。\n让我们思考一下这些知识在实际应用中的意义。\n通过将理论与实践相结合，我们能够更好地解决实际问题。\n这里展示的方法和技巧，都是经过验证的最佳实践。\n希望大家能够将这些内容应用到自己的工作中。"

/-- Band selection of `_enhance_transcript` (`ppt_to_video_pipeline.py:409-468`):
opening slide, closing slide, then position ratio `slide_num / total_slides`
below 0.3 / below 0.7 / otherwise.  The Python float literals 0.3 and 0.7 are
modelled as exact rationals. -/
def bandFiller (slide_num total_slides : Nat) : String :=
  if slide_num == 1 then openingFiller
  else if slide_num == total_slides then closingFiller
  else if ((slide_num : ℚ) / (total_slides : ℚ)) < 3 / 10 then earlyFiller
  else if ((slide_num : ℚ) / (total_slides : ℚ)) < 7 / 10 then middleFiller
  else lateFiller

/-- The enhancement built (and then `.strip()`-ped) by `_enhance_transcript`
when the input is short: `"\n" + short + "\n\n" + filler + "\n"`
(`ppt_to_video_pipeline.py:412-470`). -/
def enhanceBody (s : String) (slide_num total_slides : Nat) : String :=
  pyStripStr ("\n" ++ s ++ "\n\n" ++ bandFiller slide_num total_slides ++ "\n")

/-- `PPTToVideoPipeline._enhance_transcript` (`ppt_to_video_pipeline.py:403-470`)
on a string transcript: returned unchanged when already at least
`min_transcript_length` characters, otherwise one band filler is appended. -/
def enhanceTranscript (minLen : Nat) (s : String) (slide_num total_slides : Nat) :
    String :=
  if minLen ≤ s.length then s else enhanceBody s slide_num total_slides

/-- The per-narration body of the repair loop in `_generate_transcripts`
(`ppt_to_video_pipeline.py:195-203`): `len(transcript['transcript'])` raises
`TypeError` on length-less values (`none` result), otherwise a too-short
value is replaced by the enhanced string.  `_enhance_transcript` re-checks
`len(short_transcript) >= min` on the same value, which is still false here,
so it always proceeds to `enhanceBody`. -/
def repairNarr (minLen slide_num total_slides : Nat) (nr : Narr) : Option Narr :=
  match pyLen nr.transcript with
  | none => none
  | some len =>
    if len < minLen then
      some { nr with transcript := .str (enhanceBody (pyStrOf nr.transcript) slide_num total_slides) }
    else some nr

/-- The repair loop over one batch (`ppt_to_video_pipeline.py:195-203`),
numbering slides `batch_start + j + 1`; `none` models an exception escaping
the loop (which the surrounding `try` turns into the fallback branch). -/
def repairList (minLen start total_slides : Nat) : Nat → List Narr → Option (List Narr)
  | _, [] => some []
  | j, nr :: t =>
    match repairNarr minLen (start + j + 1) total_slides nr with
    | none => none
    | some nr2 =>
      match repairList minLen start total_slides (j + 1) t with
      | none => none
      | some rs => some (nr2 :: rs)

/-- One iteration of the batch loop of
`PPTToVideoPipeline._generate_transcripts` (`ppt_to_video_pipeline.py:170-215`):
generate the batch, repair short narrations in place, and on any exception
replace the whole batch by pipeline fallback narrations numbered globally. -/
def processBatchChunk (jloads : String → Option PyJson) (batched : Option String)
    (singles : Nat → Option String) (minLen start b total_slides : Nat) : List Narr :=
  match repairList minLen start total_slides 0
      (generateTranscriptModel jloads batched singles b) with
  | some rs => rs
  | none =>
    (List.range b).map (fun j =>
      ⟨.int (Int.ofNat (start + j + 1)), .str (fallbackTranscript (start + j + 1) total_slides)⟩)

/-- Fuel-indexed model of the `for batch_start in range(0, N, batch_size)`
loop of `_generate_transcripts` (`ppt_to_video_pipeline.py:170-215`); with
`batch_size ≥ 1` at most `N` iterations occur, so fuel `N` suffices. -/
def genLoopF (jloads : String → Option PyJson) (batchedAt : Nat → Option String)
    (singlesAt : Nat → Nat → Option String) (minLen bs N : Nat) :
    Nat → Nat → List Narr
  | 0, _ => []
  | fuel + 1, start =>
    if N ≤ start then []
    else
      processBatchChunk jloads (batchedAt start) (singlesAt start) minLen start
          (min bs (N - start)) N ++
        genLoopF jloads batchedAt singlesAt minLen bs N fuel (start + bs)

/-- `PPTToVideoPipeline._generate_transcripts`
(`ppt_to_video_pipeline.py:155-232`) for a deck of `N` slides, with the
model replies given per batch start (`batchedAt`) and per batch start and
in-batch position (`singlesAt`). -/
def pipelineTranscripts (jloads : String → Option PyJson)
    (batchedAt : Nat → Option String) (singlesAt : Nat → Nat → Option String)
    (minLen bs N : Nat) : List Narr :=
  genLoopF jloads batchedAt singlesAt minLen bs N N 0

/-- A Python exception of `SpeechSynthesisPlugin._prepare_request` /
`_encode_audio` (`speech_generation.py:201-241`). -/
inductive PyError where
  | valueError (msg : String)
  | fileNotFoundError (msg : String)
deriving DecidableEq

/-- The request body assembled by `_prepare_request`
(`speech_generation.py:22-31, 215-231`): `references` is the optional
one-element list of (base64 audio, reference text) pairs; the remaining
generation parameters keep their defaults and play no role in the claims. -/
structure SpeechRequest where
  text : String
  references : Option (List (String × String)) := none
  reference_id : Option String := none
deriving DecidableEq

/-- The preset voices accepted by `_prepare_request`
(`speech_generation.py:224`). -/
def presetVoices : List String := ["中文女", "中文男", "英文男", "英文女"]

/-- `SpeechSynthesisPlugin._prepare_request` (`speech_generation.py:201-231`).
`readAudioB64` models the file system and base64 step of `_encode_audio`
(`none` = the file does not exist, raising `FileNotFoundError`).  Python
truthiness of the optional string arguments is used, exactly as in the
source (`not reference_id`, `reference_audio_path and reference_text`). -/
def prepareRequest (text : String)
    (reference_audio_path reference_text reference_id : Option String)
    (readAudioB64 : String → Option String) : Except PyError SpeechRequest :=
  if !truthyO reference_id &&
      !(truthyO reference_audio_path && truthyO reference_text) then
    .error (.valueError
      ("Either reference_id or both reference_audio_path and reference_text must be provided"))
  else if truthyO reference_audio_path && truthyO reference_text then
    match readAudioB64 (reference_audio_path.getD ("")) with
    | none =>
      .error (.fileNotFoundError
        ("Audio file not found: " ++ reference_audio_path.getD ("")))
    | some b64 =>
      .ok ⟨text, some [(b64, reference_text.getD (""))], none⟩
  else if truthyO reference_id then
    if presetVoices.contains (reference_id.getD ("")) then
      .ok ⟨text, none, some (reference_id.getD (""))⟩
    else
      .error (.valueError
        ("Invalid reference_id: " ++ reference_id.getD ("") ++
         ". Must be one of: 中文女, 中文男, 英文男, 英文女"))
  else
    .ok ⟨text, none, none⟩

/-- One attempt of `SpeechSynthesisPlugin.synthesize`
(`speech_generation.py:160-199`): the request is prepared first; only on
success is a POST issued (`post` models the remote service; its failure
modes are folded into an error string).  The first component is the list of
POST requests actually issued by the attempt. -/
def synthesizeOnce (text : String)
    (reference_audio_path reference_text reference_id : Option String)
    (readAudioB64 : String → Option String)
    (post : SpeechRequest → Except String Unit) :
    List SpeechRequest × Except PyError Unit :=
  match prepareRequest text reference_audio_path reference_text reference_id readAudioB64 with
  | .error e => ([], .error e)
  | .ok req =>
    ([req], match post req with
      | .ok _ => .ok ()
      | .error m => .error (.valueError m))

/-- `synthesize` under its `@retry(stop=stop_after_attempt(3), reraise=True)`
decorator (`speech_generation.py:155-199`): the model is deterministic, so a
failing attempt is repeated identically three times and the final exception
is re-raised; the trace accumulates the requests of all attempts. -/
def synthesizeRetry (text : String)
    (reference_audio_path reference_text reference_id : Option String)
    (readAudioB64 : String → Option String)
    (post : SpeechRequest → Except String Unit) :
    List SpeechRequest × Except PyError Unit :=
  let r := synthesizeOnce text reference_audio_path reference_text reference_id readAudioB64 post
  match r.2 with
  | .ok u => (r.1, .ok u)
  | .error e => (r.1 ++ r.1 ++ r.1, .error e)

/-- `PipelineConfig` (`pipeline_config.py:7-95`).  Python floats are
modelled as exact rationals; the fields not involved in validation or in
the claims keep their defaults. -/
structure PipelineConfig where
  ppt_dpi : Int := 300
  ai_model : String := "gpt-4.1"
  max_tokens : Int := 3000
  temperature : ℚ := 8 / 10
  transcript_style : String := "professional"
  transcript_language : String := "zh-CN"
  min_transcript_length : Int := 200
  voice_id : String := "中文女"
  speech_language : String := "zh-cn"
  speech_speed : ℚ := 1
  speech_volume : ℚ := 1
  speech_pitch : Int := 0
  use_voice_clone : Bool := false
  reference_audio_path : Option String := none
  reference_text : Option String := none
  video_fps : Int := 30
  video_resolution : Int × Int := (1920, 1080)
  transition_duration : ℚ := 1 / 2
  fade_in : Bool := true
  fade_out : Bool := true
  output_dir : String := "output"
  save_intermediates : Bool := true
  max_slides : Option Int := none
  batch_size : Int := 5
  api_retry_attempts : Int := 3
  api_timeout : Int := 60
deriving DecidableEq

/-- The valid transcript styles of `PipelineConfig.validate`
(`pipeline_config.py:134`). -/
def validStyles : List String := ["professional", "casual", "academic", "storytelling"]

/-- The valid voice ids of `PipelineConfig.validate`
(`pipeline_config.py:139`). -/
def validVoices : List String := ["中文女", "中文男", "英文女", "英文男"]

/-- `PipelineConfig.validate` (`pipeline_config.py:117-172`): the source
appends one error message per failed range check and returns `True` iff the
error list stays empty; each disjunct below is one `errors.append`
condition, in source order. -/
def PipelineConfig.validate (c : PipelineConfig) : Bool :=
  !(decide (c.ppt_dpi < 72 ∨ c.ppt_dpi > 600) ||
    decide (c.max_tokens < 100 ∨ c.max_tokens > 640000) ||
    decide (c.temperature < 0 ∨ c.temperature > 1) ||
    !(validStyles.contains c.transcript_style) ||
    !(validVoices.contains c.voice_id) ||
    decide (c.speech_speed < 1 / 2 ∨ c.speech_speed > 2) ||
    decide (c.speech_volume < 0 ∨ c.speech_volume > 2) ||
    decide (c.speech_pitch < -20 ∨ c.speech_pitch > 20) ||
    decide (c.video_fps < 1 ∨ c.video_fps > 60) ||
    decide (c.video_resolution.1 < 320 ∨ c.video_resolution.2 < 240) ||
    decide (c.transition_duration < 0 ∨ c.transition_duration > 5) ||
    decide (c.batch_size < 1 ∨ c.batch_size > 50))

/-- The outcome of `run_pipeline.main` before any stage work
(`run_pipeline.py:14-76`). -/
inductive MainOutcome where
  | cloneArgError
  | configError
  | runStarted
deriving DecidableEq

/-- The configuration after `main` applied the voice-cloning command-line
overrides (`run_pipeline.py:38-43`); argparse yields `None` for an absent
option, and the source guards each assignment with Python truthiness. -/
def mainEffectiveConfig (c : PipelineConfig) (cliVoiceClone : Bool)
    (cliRefAudio cliRefText : Option String) : PipelineConfig :=
  if cliVoiceClone then
    { c with
      use_voice_clone := true
      reference_audio_path :=
        if truthyO cliRefAudio then cliRefAudio else c.reference_audio_path
      reference_text :=
        if truthyO cliRefText then cliRefText else c.reference_text }
  else c

/-- `run_pipeline.main` up to the point where the pipeline would start
(`run_pipeline.py:38-56`): the voice-clone completeness check and
`config.validate()` both return before the pipeline object is even
constructed. -/
def runPipelineMain (c : PipelineConfig) (cliVoiceClone : Bool)
    (cliRefAudio cliRefText : Option String) : MainOutcome :=
  let c2 := mainEffectiveConfig c cliVoiceClone cliRefAudio cliRefText
  if cliVoiceClone &&
      (!truthyO c2.reference_audio_path || !truthyO c2.reference_text) then
    .cloneArgError
  else if !c2.validate then .configError
  else .runStarted

/-- The shape of one TTS request issued by
`PPTToVideoPipeline._generate_speech` (`ppt_to_video_pipeline.py:258-280`):
either the voice-clone form (no `reference_id` passed) or the preset-voice
form (`reference_id = config.voice_id`). -/
inductive SynthRequestForm where
  | clone (refAudio refText : String)
  | preset (voiceId : String)
deriving DecidableEq

/-- The `use_clone` decision of `_generate_speech`
(`ppt_to_video_pipeline.py:238-248`): true only when cloning is enabled and
both reference fields are truthy. -/
def pipelineUseClone (c : PipelineConfig) : Bool :=
  if c.use_voice_clone then
    if !truthyO c.reference_audio_path || !truthyO c.reference_text then false
    else true
  else false

/-- Whether `_generate_speech` emits the "falling back to preset voice"
warnings (`ppt_to_video_pipeline.py:240-242`). -/
def pipelineCloneWarning (c : PipelineConfig) : Bool :=
  c.use_voice_clone &&
    (!truthyO c.reference_audio_path || !truthyO c.reference_text)

/-- The synthesize-call form chosen for every narration by
`_generate_speech` (`ppt_to_video_pipeline.py:258-280`). -/
def generateSpeechRequests (c : PipelineConfig) (ts : List Narr) :
    List SynthRequestForm :=
  ts.map (fun _ =>
    if pipelineUseClone c then
      .clone (c.reference_audio_path.getD ("")) (c.reference_text.getD (""))
    else .preset c.voice_id)

/-- The audio files collected by `_generate_speech`
(`ppt_to_video_pipeline.py:250-292`): the loop runs over all narrations in
order; `ok i` abstracts "the synthesize call for position `i` did not raise
and the output file exists" (any per-slide exception is caught and the loop
continues).  Each collected entry keeps its position and narration. -/
def generateSpeechAudio (ts : List Narr) (ok : Nat → Bool) : List (Nat × Narr) :=
  ts.enum.filter (fun p => ok p.1)

/-- One external ffmpeg invocation of `VideoSynthesizer.synthesize`
(`video_synthesizer_simple.py:109-184`). -/
inductive FfmpegCall where
  | encodeSegment (index : Nat) (fadeIn fadeOut : Bool) (duration : ℚ)
  | concat (numSegments : Nat)
deriving DecidableEq

/-- The count-mismatch precondition of `VideoSynthesizer.synthesize`
(`video_synthesizer_simple.py:70`). -/
def countMismatch (images : List α) (audio : List β) : Bool :=
  images.length != audio.length

/-- The per-segment encode loop of `VideoSynthesizer.synthesize`
(`video_synthesizer_simple.py:98-153`): one ffmpeg call per (image, audio)
pair with fade-in only on the first and fade-out only on the last segment;
a non-zero return code (`encOk i = false`) raises and stops the loop. -/
def segLoop (dur : β → ℚ) (fadeIn fadeOut : Bool) (total : Nat)
    (encOk : Nat → Bool) : Nat → List (α × β) → List FfmpegCall × Except String Unit
  | _, [] => ([], .ok ())
  | i, pair :: rest =>
    let call := FfmpegCall.encodeSegment i (fadeIn && i == 0)
        (fadeOut && i == total - 1) (dur pair.2)
    if encOk i then
      let r := segLoop dur fadeIn fadeOut total encOk (i + 1) rest
      (call :: r.1, r.2)
    else
      ([call], .error ("Failed to create segment " ++ toString (i + 1)))

/-- `VideoSynthesizer.synthesize` (`video_synthesizer_simple.py:40-190`).
`dur` models `_get_audio_duration`, `encOk`/`concatOk` the return codes of
the external ffmpeg runs.  The length check happens before the temporary
directory is populated and before any ffmpeg invocation; the first
component is the list of ffmpeg calls actually issued. -/
def videoSynthesize (images : List α) (audio : List β) (dur : β → ℚ)
    (fadeIn fadeOut : Bool) (encOk : Nat → Bool) (concatOk : Bool) :
    List FfmpegCall × Except String Unit :=
  if countMismatch images audio then
    ([], .error ("Number of images (" ++ toString images.length ++
      ") must match number of audio files (" ++ toString audio.length ++ ")"))
  else
    let pairs := images.zip audio
    let r := segLoop dur fadeIn fadeOut images.length encOk 0 pairs
    match r.2 with
    | .error e => (r.1, .error e)
    | .ok _ =>
      (r.1 ++ [FfmpegCall.concat pairs.length],
        if concatOk then .ok () else .error ("Failed to concatenate video"))

/-- The arguments `PPTToVideoPipeline.process` hands to `_create_video`
(`ppt_to_video_pipeline.py:100-119`): the transcripts are generated for all
slides, speech synthesis collects the successful audio files, and the image
list passed on is `slide_images[:len(audio_files)]`. -/
def pipelineVideoArgs (slides : List α) (jloads : String → Option PyJson)
    (batchedAt : Nat → Option String) (singlesAt : Nat → Nat → Option String)
    (minLen bs : Nat) (ok : Nat → Bool) : List α × List (Nat × Narr) :=
  let ts := pipelineTranscripts jloads batchedAt singlesAt minLen bs slides.length
  let audio := generateSpeechAudio ts ok
  (slides.take audio.length, audio)

/-- The padding loop reaches the requested length when given enough fuel. -/
theorem padGo_le_length (n : Nat) :
    ∀ (fuel : Nat) (xs : List Narr), n ≤ xs.length + fuel →
      n ≤ (padGo n fuel xs).length := by
  intro fuel
  induction fuel with
  | zero => intro xs h; simpa [padGo] using h
  | succ k ih =>
    intro xs h
    rw [padGo]
    by_cases hlt : xs.length < n
    · simp only [hlt, if_true]
      apply ih
      simp
      omega
    · simp only [hlt, if_false]
      omega

/-- The padding loop is the identity on lists already long enough. -/
theorem padGo_of_le (n : Nat) (fuel : Nat) (xs : List Narr) (h : n ≤ xs.length) :
    padGo n fuel xs = xs := by
  cases fuel with
  | zero => rfl
  | succ k =>
    rw [padGo]
    simp only [Nat.not_lt.mpr h, if_false]

/-- Closed form of the padding loop: with enough fuel it appends exactly the
missing placeholders, numbered consecutively from `xs.length + 1`. -/
theorem padGo_eq_append (n : Nat) :
    ∀ (fuel : Nat) (xs : List Narr), n ≤ xs.length + fuel →
      padGo n fuel xs =
        xs ++ (List.range' (xs.length + 1) (n - xs.length)).map placeholderNarr := by
  intro fuel
  induction fuel with
  | zero =>
    intro xs h
    have h0 : n - xs.length = 0 := by omega
    simp [padGo, h0]
  | succ f ih =>
    intro xs h
    rw [padGo]
    by_cases hlt : xs.length < n
    · simp only [hlt, if_true]
      rw [ih (xs ++ [placeholderNarr (xs.length + 1)])
        (by simp only [List.length_append, List.length_singleton]; omega)]
      rw [List.append_assoc, List.singleton_append, List.length_append,
        List.length_singleton]
      congr 1
      have hn : n - xs.length = (n - (xs.length + 1)) + 1 := by omega
      rw [hn, List.range'_succ (xs.length + 1) (n - (xs.length + 1)) 1]
      simp
    · simp only [hlt, if_false]
      have h0 : n - xs.length = 0 := by omega
      simp [h0]

/-- The fallback branch of the batch-response parse returns one entry per
requested slide. -/
theorem parseFallback_length (r : String) (n : Nat) :
    (parseFallback r n).length = n := by
  unfold parseFallback
  by_cases h : containsSub r ("第1页") || containsSub r ("Slide 1") <;> simp [h]

/-- `_parse_batch_response` returns one entry per requested slide, on every
input. -/
theorem parseBatchResponse_length (jloads : String → Option PyJson) (r : String)
    (n : Nat) : (parseBatchResponse jloads r n).length = n := by
  unfold parseBatchResponse
  cases hj : jloads r with
  | none => exact parseFallback_length r n
  | some v =>
    cases v with
    | list items =>
      simp only [List.length_take]
      have := padGo_le_length n (n - (items.filterMap validItem).length)
        (items.filterMap validItem) (by omega)
      omega
    | null => exact parseFallback_length r n
    | bool b => exact parseFallback_length r n
    | int m => exact parseFallback_length r n
    | str s => exact parseFallback_length r n
    | dict kvs => exact parseFallback_length r n

/-- The individual-generation fallback returns one entry per slide. -/
theorem individualTranscripts_length (singles : Nat → Option String) (n : Nat) :
    (individualTranscripts singles n).length = n := by
  simp [individualTranscripts]

/-- `generate_transcript` returns one entry per slide of the batch. -/
theorem generateTranscriptModel_length (jloads : String → Option PyJson)
    (batched : Option String) (singles : Nat → Option String) (n : Nat) :
    (generateTranscriptModel jloads batched singles n).length = n := by
  unfold generateTranscriptModel
  cases batched with
  | none => exact individualTranscripts_length singles n
  | some content => exact parseBatchResponse_length jloads (pyStripStr content) n

/-- The repair loop preserves the number of narrations when it completes. -/
theorem repairList_length (minLen start total_slides : Nat) :
    ∀ (j : Nat) (ns rs : List Narr),
      repairList minLen start total_slides j ns = some rs → rs.length = ns.length := by
  intro j ns
  induction ns generalizing j with
  | nil => intro rs h; simp [repairList] at h; simp [← h]
  | cons nr t ih =>
    intro rs h
    unfold repairList at h
    cases hr : repairNarr minLen (start + j + 1) total_slides nr with
    | none => rw [hr] at h; exact absurd h (by simp)
    | some nr2 =>
      rw [hr] at h
      cases ht : repairList minLen start total_slides (j + 1) t with
      | none => rw [ht] at h; exact absurd h (by simp)
      | some rs2 =>
        rw [ht] at h
        simp at h
        rw [← h]
        simp [ih (j + 1) rs2 ht]

/-- One batch iteration contributes exactly its batch size. -/
theorem processBatchChunk_length (jloads : String → Option PyJson)
    (batched : Option String) (singles : Nat → Option String)
    (minLen start b total_slides : Nat) :
    (processBatchChunk jloads batched singles minLen start b total_slides).length = b := by
  unfold processBatchChunk
  cases hr : repairList minLen start total_slides 0
      (generateTranscriptModel jloads batched singles b) with
  | none => simp
  | some rs =>
    show rs.length = b
    rw [repairList_length minLen start total_slides 0 _ rs hr]
    exact generateTranscriptModel_length jloads batched singles b

/-- The batch loop produces one narration per remaining slide, given
positive batch size and enough fuel. -/
theorem genLoopF_length (jloads : String → Option PyJson)
    (batchedAt : Nat → Option String) (singlesAt : Nat → Nat → Option String)
    (minLen bs N : Nat) (hbs : 1 ≤ bs) :
    ∀ (fuel start : Nat), N - start ≤ fuel →
      (genLoopF jloads batchedAt singlesAt minLen bs N fuel start).length = N - start := by
  intro fuel
  induction fuel with
  | zero => intro start h; rw [genLoopF]; simp only [List.length_nil]; omega
  | succ f ih =>
    intro start h
    rw [genLoopF]
    by_cases hs : N ≤ start
    · rw [if_pos hs]; simp only [List.length_nil]; omega
    · simp only [hs, if_false, List.length_append]
      rw [processBatchChunk_length, ih (start + bs) (by omega)]
      rcases Nat.le_total bs (N - start) with hc | hc
      · rw [Nat.min_eq_left hc]; omega
      · rw [Nat.min_eq_right hc]; omega

/-- The transcript stage always yields one narration per slide (helper shared
by several claims). -/
theorem pipelineTranscripts_length (jloads : String → Option PyJson)
    (batchedAt : Nat → Option String) (singlesAt : Nat → Nat → Option String)
    (minLen bs N : Nat) (hbs : 1 ≤ bs) :
    (pipelineTranscripts jloads batchedAt singlesAt minLen bs N).length = N := by
  unfold pipelineTranscripts
  have h := genLoopF_length jloads batchedAt singlesAt minLen bs N hbs N 0 (by omega)
  simpa using h

/-- C1 (counterexample): for a 2-slide deck with batch size 1, when each
batch reply is the string `"x"` (not JSON, no slide markers — so each batch
falls back to its per-batch static error narration numbered from 1), the
transcript stage returns slide_number fields `[1, 1]`, not `[1, 2]`: the
parser numbers slides relative to the batch and the pipeline never
renumbers, so the claimed gap-free global 1..N sequence fails. -/
theorem c1_counterexample :
    ¬ ((pipelineTranscripts (fun _ => none) (fun _ => some ("x"))
        (fun _ _ => none) 200 1 2).map Narr.slide_number =
      [PyJson.int 1, PyJson.int 2]) := by
  intro h
  have h2 : (pipelineTranscripts (fun _ => none) (fun _ => some ("x"))
      (fun _ _ => none) 200 1 2).map Narr.slide_number =
      [PyJson.int 1, PyJson.int 1] := by rfl
  rw [h2] at h
  simp only [List.cons.injEq, PyJson.int.injEq] at h
  omega

/-- C1 (amended): for every deck of `N` slides, every positive batch size,
and arbitrary model replies, the transcript stage returns exactly `N`
narrations; the `slide_number` fields, however, are whatever the per-batch
parse produced (model-supplied, or batch-relative `1..b` in the fallback
paths) and need not form the sequence `1..N`. -/
theorem c1_transcript_count (jloads : String → Option PyJson)
    (batchedAt : Nat → Option String) (singlesAt : Nat → Nat → Option String)
    (minLen bs N : Nat) (hbs : 1 ≤ bs) :
    (pipelineTranscripts jloads batchedAt singlesAt minLen bs N).length = N :=
  pipelineTranscripts_length jloads batchedAt singlesAt minLen bs N hbs

/-- C1 (witness): the count property evaluated on a concrete 3-slide deck
with the default batch size 5. -/
theorem c1_transcript_count_witness :
    1 ≤ 5 ∧ (pipelineTranscripts (fun _ => none) (fun _ => none)
      (fun _ _ => none) 200 5 3).length = 3 :=
  ⟨by decide,
   c1_transcript_count (fun _ => none) (fun _ => none) (fun _ _ => none)
     200 5 3 (by decide)⟩

/-- Whether a decoded JSON value is a list (`isinstance(transcripts, list)`). -/
def isListJ : PyJson → Bool
  | .list _ => true
  | _ => false

/-- Skipping never happens on conforming items: validation degenerates to the
projection map. -/
theorem filterMap_validItem_eq_map (items : List PyJson)
    (h : ∀ it ∈ items, (validItem it).isSome) :
    items.filterMap validItem = items.map projectItem := by
  induction items with
  | nil => rfl
  | cons x xs ih =>
    have hx := h x (by simp)
    cases hv : validItem x with
    | none => rw [hv] at hx; simp at hx
    | some nr =>
      rw [List.filterMap_cons, List.map_cons, hv]
      rw [ih (fun it hit => h it (by simp [hit]))]
      simp [projectItem, hv]

/-- C4 (counterexample): the response `["第1页 x"]` decodes as a JSON list
whose single item is not an object with the required keys, and it contains
the slide marker `第1页`; the claim says the parser falls back to the
slide-marker text splitter on such input, but the code pads inside the JSON
branch instead and never consults the markers, producing a different
result. -/
theorem c4_counterexample :
    parseBatchResponse
        (fun s => if s == "[\"第1页 x\"]" then some (.list [.str ("第1页 x")]) else none)
        ("[\"第1页 x\"]") 1 ≠
      parseFallback ("[\"第1页 x\"]") 1 := by
  intro h
  have hL : parseBatchResponse
      (fun s => if s == "[\"第1页 x\"]" then some (.list [.str ("第1页 x")]) else none)
      ("[\"第1页 x\"]") 1 = [placeholderNarr 1] := by rfl
  have hR : parseFallback ("[\"第1页 x\"]") 1 =
      [⟨.int 1, .str ("x\"]")⟩] := by rfl
  rw [hL, hR] at h
  simp only [placeholderNarr, List.cons.injEq, Narr.mk.injEq, PyJson.str.injEq,
    and_true] at h
  exact absurd h.2 (by decide)

/-- C4 (amended): the batch-response parser always returns exactly `n`
entries; when the response fails to decode as JSON, or decodes to a
non-list, it falls back to the marker-based splitter (or, with no markers,
to one static error narration per slide, both inside `parseFallback`); a
response decoding to a list, however, is handled in the JSON branch, whose
non-conforming items are dropped and replaced by padding placeholders
without consulting the markers. -/
theorem c4_parse_fallback (jl : String → Option PyJson) (r : String) (n : Nat) :
    (parseBatchResponse jl r n).length = n ∧
    (jl r = none ∨ (∃ v, jl r = some v ∧ isListJ v = false) →
      parseBatchResponse jl r n = parseFallback r n) := by
  refine ⟨parseBatchResponse_length jl r n, ?_⟩
  intro h
  rcases h with h | ⟨v, hv, hnl⟩
  · unfold parseBatchResponse
    rw [h]
  · unfold parseBatchResponse
    rw [hv]
    cases v with
    | list items => simp [isListJ] at hnl
    | null => rfl
    | bool b => rfl
    | int m => rfl
    | str s => rfl
    | dict kvs => rfl

/-- C4 (witness): a response that is not JSON at all, for two requested
slides. -/
theorem c4_parse_fallback_witness :
    (parseBatchResponse (fun _ => none) ("oops") 2).length = 2 ∧
    parseBatchResponse (fun _ => none) ("oops") 2 = parseFallback ("oops") 2 :=
  ⟨(c4_parse_fallback (fun _ => none) ("oops") 2).1,
   (c4_parse_fallback (fun _ => none) ("oops") 2).2 (Or.inl rfl)⟩

/-- C5 (confirmed): a well-formed response — a JSON array whose items all
carry the two required keys — is returned as the projection of exactly
those items, truncated to the first `n` when the array is long enough and
otherwise padded with the per-slide error placeholders numbered from the
array length on, so that the result always has exactly `n` entries. -/
theorem c5_wellformed_parse (jl : String → Option PyJson) (r : String) (n : Nat)
    (items : List PyJson) (hj : jl r = some (.list items))
    (hall : ∀ it ∈ items, (validItem it).isSome) :
    (n ≤ items.length → parseBatchResponse jl r n = (items.map projectItem).take n) ∧
    (items.length < n → parseBatchResponse jl r n =
      items.map projectItem ++
        (List.range' (items.length + 1) (n - items.length)).map placeholderNarr) ∧
    (parseBatchResponse jl r n).length = n := by
  have hmap := filterMap_validItem_eq_map items hall
  have hlen : (items.filterMap validItem).length = items.length := by
    rw [hmap]; simp
  refine ⟨?_, ?_, parseBatchResponse_length jl r n⟩
  · intro hn
    unfold parseBatchResponse
    rw [hj]
    simp only
    rw [padGo_of_le n _ _ (by omega), hmap]
  · intro hn
    unfold parseBatchResponse
    rw [hj]
    simp only
    rw [padGo_eq_append n _ _ (by omega), hmap]
    simp only [List.length_map]
    rw [List.take_of_length_le]
    simp only [List.length_append, List.length_map, List.length_range']
    omega

/-- C5 (witness): a well-formed one-item array padded to two requested
slides. -/
theorem c5_wellformed_parse_witness :
    (2 ≤ ([PyJson.dict [("slide_number", PyJson.int 1), ("transcript", PyJson.str ("hello"))]] : List PyJson).length →
      parseBatchResponse
        (fun s => if s == "[\x7b\"slide_number\": 1, \"transcript\": \"hello\"\x7d]" then
          some (.list [.dict [("slide_number", .int 1), ("transcript", .str ("hello"))]])
          else none)
        ("[\x7b\"slide_number\": 1, \"transcript\": \"hello\"\x7d]") 2 =
        (([PyJson.dict [("slide_number", PyJson.int 1), ("transcript", PyJson.str ("hello"))]] : List PyJson).map projectItem).take 2) ∧
    (([PyJson.dict [("slide_number", PyJson.int 1), ("transcript", PyJson.str ("hello"))]] : List PyJson).length < 2 →
      parseBatchResponse
        (fun s => if s == "[\x7b\"slide_number\": 1, \"transcript\": \"hello\"\x7d]" then
          some (.list [.dict [("slide_number", .int 1), ("transcript", .str ("hello"))]])
          else none)
        ("[\x7b\"slide_number\": 1, \"transcript\": \"hello\"\x7d]") 2 =
        ([PyJson.dict [("slide_number", PyJson.int 1), ("transcript", PyJson.str ("hello"))]] : List PyJson).map projectItem ++
          (List.range' (([PyJson.dict [("slide_number", PyJson.int 1), ("transcript", PyJson.str ("hello"))]] : List PyJson).length + 1)
            (2 - ([PyJson.dict [("slide_number", PyJson.int 1), ("transcript", PyJson.str ("hello"))]] : List PyJson).length)).map placeholderNarr) ∧
    (parseBatchResponse
        (fun s => if s == "[\x7b\"slide_number\": 1, \"transcript\": \"hello\"\x7d]" then
          some (.list [.dict [("slide_number", .int 1), ("transcript", .str ("hello"))]])
          else none)
        ("[\x7b\"slide_number\": 1, \"transcript\": \"hello\"\x7d]") 2).length = 2 :=
  c5_wellformed_parse
    (fun s => if s == "[\x7b\"slide_number\": 1, \"transcript\": \"hello\"\x7d]" then
      some (.list [.dict [("slide_number", .int 1), ("transcript", .str ("hello"))]])
      else none)
    ("[\x7b\"slide_number\": 1, \"transcript\": \"hello\"\x7d]") 2
    [.dict [("slide_number", .int 1), ("transcript", .str ("hello"))]]
    (by rfl) (by decide)

/-- The batch loop emits nothing once the start index passes the deck. -/
theorem genLoopF_stop (jloads : String → Option PyJson)
    (batchedAt : Nat → Option String) (singlesAt : Nat → Nat → Option String)
    (minLen bs N : Nat) :
    ∀ (fuel start : Nat), N ≤ start →
      genLoopF jloads batchedAt singlesAt minLen bs N fuel start = [] := by
  intro fuel start h
  cases fuel with
  | zero => rfl
  | succ f => rw [genLoopF, if_pos h]

/-- Repairing a run of individual error placeholders enhances each one in
place, preserving order and slide numbers. -/
theorem repairList_individual (minLen total : Nat) :
    ∀ (m j : Nat),
      repairList minLen 0 total j
        ((List.range' (j + 1) m).map (fun i =>
          (⟨.int (Int.ofNat i), .str (individualPlaceholder i)⟩ : Narr))) =
      some ((List.range' (j + 1) m).map (fun i =>
        (⟨.int (Int.ofNat i),
          .str (enhanceTranscript minLen (individualPlaceholder i) i total)⟩ : Narr))) := by
  intro m
  induction m with
  | zero => intro j; rfl
  | succ k ih =>
    intro j
    rw [List.range'_succ (j + 1) k 1, List.map_cons, List.map_cons]
    unfold repairList
    have hrn : repairNarr minLen (0 + j + 1) total
        ⟨.int (Int.ofNat (j + 1)), .str (individualPlaceholder (j + 1))⟩ =
        some ⟨.int (Int.ofNat (j + 1)),
          .str (enhanceTranscript minLen (individualPlaceholder (j + 1)) (j + 1) total)⟩ := by
      unfold repairNarr pyLen pyStrOf enhanceTranscript
      simp only [Nat.zero_add]
      by_cases hl : (individualPlaceholder (j + 1)).length < minLen
      · rw [if_pos hl, if_neg (by omega)]
      · rw [if_neg hl, if_pos (by omega)]
    rw [hrn]
    have htail := ih (j + 1)
    rw [show (j + 1) + 1 = j + 1 + 1 from rfl] at htail
    rw [htail]

/-- C3 (counterexample): a 3-slide deck, batch size 5, minimum length 200
(the defaults), with every attempt of both the batched and the per-slide
vision calls raising.  The claim predicts the three canned
first/middle/last fallback templates of `_get_fallback_transcript`; in
fact `generate_transcript` catches the batch failure and falls back to
individual generation, whose per-slide failures produce error placeholders
(afterwards passed through the length enhancement), so already the first
narration differs from the "first slide" template. -/
theorem c3_counterexample :
    ¬ ((pipelineTranscripts (fun _ => none) (fun _ => none) (fun _ _ => none)
        200 5 3).map Narr.transcript =
      [.str (fallbackTranscript 1 3), .str (fallbackTranscript 2 3),
       .str (fallbackTranscript 3 3)]) := by
  intro h
  have hh : ((pipelineTranscripts (fun _ => none) (fun _ => none)
      (fun _ _ => none) 200 5 3).map Narr.transcript).head? =
      some (.str (fallbackTranscript 1 3)) := by rw [h]; rfl
  have hh2 : ((pipelineTranscripts (fun _ => none) (fun _ => none)
      (fun _ _ => none) 200 5 3).map Narr.transcript).head? =
      some (.str (enhanceTranscript 200 (individualPlaceholder 1) 1 3)) := by rfl
  rw [hh2] at hh
  simp only [Option.some.injEq, PyJson.str.injEq] at hh
  exact absurd hh (by decide)

/-- C3 (amended): if every attempt of the batched vision call and of the
per-slide fallback calls raises, the transcript stage still completes and
yields exactly one narration per slide, numbered `1..n` — but these are the
individual-generation error placeholders (then passed through the
minimum-length enhancement), not the canned first/middle/last templates of
`_get_fallback_transcript`, which are reachable only when
`generate_transcript` itself raises into the pipeline loop. -/
theorem c3_fallback_on_total_failure (jloads : String → Option PyJson)
    (minLen bs n : Nat) (h1 : 1 ≤ n) (h2 : n ≤ bs) :
    pipelineTranscripts jloads (fun _ => none) (fun _ _ => none) minLen bs n =
      (List.range' 1 n).map (fun i =>
        (⟨.int (Int.ofNat i),
          .str (enhanceTranscript minLen (individualPlaceholder i) i n)⟩ : Narr)) := by
  unfold pipelineTranscripts
  cases n with
  | zero => omega
  | succ m =>
    rw [genLoopF, if_neg (by omega)]
    rw [genLoopF_stop jloads (fun _ => none) (fun _ _ => none) minLen bs (m + 1)
      m (0 + bs) (by omega)]
    rw [List.append_nil]
    have hmin : min bs (m + 1 - 0) = m + 1 := by
      rw [Nat.sub_zero]
      exact Nat.min_eq_right h2
    rw [hmin]
    unfold processBatchChunk generateTranscriptModel
    have hind : individualTranscripts (fun _ => none) (m + 1) =
        (List.range' 1 (m + 1)).map (fun i =>
          (⟨.int (Int.ofNat i), .str (individualPlaceholder i)⟩ : Narr)) := by
      unfold individualTranscripts
      rw [List.range'_eq_map_range, List.map_map]
      apply List.map_congr_left
      intro j hj
      simp only [Function.comp_apply]
      rw [Nat.add_comm 1 j]
      rfl
    have hrep := repairList_individual minLen (m + 1) (m + 1) 0
    simp only [Nat.zero_add] at hrep
    show (match repairList minLen 0 (m + 1) 0
        (individualTranscripts (fun _ => none) (m + 1)) with
      | some rs => rs
      | none =>
        (List.range (m + 1)).map (fun j =>
          ⟨.int (Int.ofNat (0 + j + 1)),
           .str (fallbackTranscript (0 + j + 1) (m + 1))⟩)) = _
    rw [hind, hrep]

/-- C3 (witness): the amended statement evaluated on the concrete 3-slide,
batch-size-5 scenario of the specification. -/
theorem c3_fallback_on_total_failure_witness :
    1 ≤ 3 ∧
    pipelineTranscripts (fun _ => none) (fun _ => none) (fun _ _ => none)
        200 5 3 =
      (List.range' 1 3).map (fun i =>
        (⟨.int (Int.ofNat i),
          .str (enhanceTranscript 200 (individualPlaceholder i) i 3)⟩ : Narr)) :=
  ⟨by decide,
   c3_fallback_on_total_failure (fun _ => none) 200 5 3 (by decide) (by decide)⟩

/-- `dropWhile` is the identity on a list whose head fails the predicate. -/
theorem dropWhile_of_head_neg {p : Char → Bool} :
    ∀ {l : List Char} {c : Char}, l.head? = some c → p c = false →
      l.dropWhile p = l := by
  intro l c hh hp
  cases l with
  | nil => simp at hh
  | cons a t =>
    have ha : a = c := by simpa using hh
    subst ha
    rw [List.dropWhile_cons]
    simp [hp]

/-- `rstrip` removes exactly a trailing newline from a list that ends in a
non-space character followed by that newline. -/
theorem rstripChars_append_newline {l : List Char} {c : Char}
    (hl : l.getLast? = some c) (hc : isPySpace c = false) :
    rstripChars (l ++ ['\n']) = l := by
  unfold rstripChars
  rw [List.reverse_append]
  simp only [List.reverse_cons, List.reverse_nil, List.nil_append,
    List.singleton_append]
  rw [List.dropWhile_cons]
  have hnl : isPySpace '\n' = true := by decide
  rw [hnl]
  simp only [if_true]
  rw [dropWhile_of_head_neg (by rw [List.head?_reverse]; exact hl) hc]
  exact List.reverse_reverse l

/-- Python `strip` of the enhancement wrapper
`"\n" + s + "\n\n" + filler + "\n"`: the trailing newline disappears, the
leading whitespace of `s` is consumed, and a whitespace-only `s` vanishes
entirely, provided the filler starts and ends with non-space characters. -/
theorem stripChars_wrap {sd f : List Char} {c0 c1 : Char}
    (h0 : f.head? = some c0) (hc0 : isPySpace c0 = false)
    (h1 : f.getLast? = some c1) (hc1 : isPySpace c1 = false) :
    stripChars ('\n' :: (sd ++ ('\n' :: '\n' :: (f ++ ['\n'])))) =
      if (sd.dropWhile isPySpace).isEmpty then f
      else sd.dropWhile isPySpace ++ ('\n' :: '\n' :: f) := by
  have hnl : isPySpace '\n' = true := by decide
  have hdf : List.dropWhile isPySpace ('\n' :: '\n' :: (f ++ ['\n'])) = f ++ ['\n'] := by
    rw [List.dropWhile_cons, hnl]
    simp only [if_true]
    rw [List.dropWhile_cons, hnl]
    simp only [if_true]
    apply dropWhile_of_head_neg _ hc0
    cases f with
    | nil => simp at h0
    | cons a t => simpa using h0
  unfold stripChars lstripChars
  rw [List.dropWhile_cons, hnl]
  simp only [if_true]
  rw [List.dropWhile_append]
  by_cases hemp : (List.dropWhile isPySpace sd).isEmpty = true
  · rw [if_pos hemp, if_pos hemp, hdf]
    exact rstripChars_append_newline h1 hc1
  · rw [if_neg hemp, if_neg hemp]
    have hsplit : List.dropWhile isPySpace sd ++ ('\n' :: '\n' :: (f ++ ['\n'])) =
        (List.dropWhile isPySpace sd ++ ('\n' :: '\n' :: f)) ++ ['\n'] := by
      simp
    rw [hsplit]
    apply rstripChars_append_newline _ hc1
    have hf2 : ('\n' :: '\n' :: f) = ['\n', '\n'] ++ f := rfl
    rw [List.getLast?_append, hf2, List.getLast?_append, h1]
    rfl

/-- Every band filler starts and ends with a non-space character. -/
theorem bandFiller_spec (num total : Nat) :
    ∃ c0 c1, (bandFiller num total).data.head? = some c0 ∧ isPySpace c0 = false ∧
      (bandFiller num total).data.getLast? = some c1 ∧ isPySpace c1 = false := by
  unfold bandFiller
  split
  · exact ⟨'各', '。', by decide, by decide, by decide, by decide⟩
  · split
    · exact ⟨'到', '！', by decide, by decide, by decide, by decide⟩
    · split
      · exact ⟨'在', '。', by decide, by decide, by decide, by decide⟩
      · split
        · exact ⟨'现', '。', by decide, by decide, by decide, by decide⟩
        · exact ⟨'基', '。', by decide, by decide, by decide, by decide⟩

/-- Character-level description of the enhancement: the result is the
left-stripped original followed by a blank line and the band filler (or the
filler alone when the original is whitespace-only). -/
theorem enhanceBody_data (s : String) (num total : Nat) :
    (enhanceBody s num total).data =
      if (s.data.dropWhile isPySpace).isEmpty then (bandFiller num total).data
      else s.data.dropWhile isPySpace ++ ('\n' :: '\n' :: (bandFiller num total).data) := by
  obtain ⟨c0, c1, h0, hc0, h1, hc1⟩ := bandFiller_spec num total
  unfold enhanceBody pyStripStr
  have d1 : ("\n" : String).data = ['\n'] := rfl
  have d2 : ("\n\n" : String).data = ['\n', '\n'] := rfl
  have hdata : ("\n" ++ s ++ "\n\n" ++ bandFiller num total ++ "\n").data =
      '\n' :: (s.data ++ ('\n' :: '\n' :: ((bandFiller num total).data ++ ['\n']))) := by
    simp [String.data_append, d1, d2]
  rw [hdata]
  exact stripChars_wrap h0 hc0 h1 hc1

/-- `rstrip` only ever removes a suffix. -/
theorem rstripChars_prefix_self (l : List Char) : rstripChars l <+: l := by
  unfold rstripChars
  conv_rhs => rw [← List.reverse_reverse l]
  rw [ List.reverse_prefix]
  exact List.dropWhile_suffix _

set_option maxRecDepth 40000 in
/-- C2 (counterexample): with the default configuration
(`min_transcript_length = 200`) an accepted empty narration on the opening
slide of a 3-slide deck is repaired to the opening filler alone, whose
length 143 stays below the configured minimum — the filler is appended
once, not "until the minimum is met". -/
theorem c2_counterexample :
    ("" : String).length < 200 ∧
      ¬ (200 ≤ (enhanceTranscript 200 ("") 1 3).length) :=
  ⟨by decide, by decide⟩

/-- C2 (amended): whenever a narration is shorter than the configured
minimum, `_enhance_transcript` appends the position-specific band filler
exactly once: the repaired text is the left-stripped original followed by a
blank line and the filler (the filler alone if the original is pure
whitespace); it still contains the stripped original as a prefix and the
filler as a suffix and is never truncated below them — so the minimum is
met exactly when the stripped original plus the filler reach it, which a
single appended filler does not guarantee. -/
theorem c2_enhance_once (minLen : Nat) (s : String) (num total : Nat)
    (h : s.length < minLen) :
    (enhanceTranscript minLen s num total).data =
      (if (lstripChars s.data).isEmpty then (bandFiller num total).data
       else lstripChars s.data ++ ('\n' :: '\n' :: (bandFiller num total).data)) ∧
    stripChars s.data <+: (enhanceTranscript minLen s num total).data ∧
    (bandFiller num total).data <:+ (enhanceTranscript minLen s num total).data ∧
    (bandFiller num total).length ≤ (enhanceTranscript minLen s num total).length := by
  have he : enhanceTranscript minLen s num total = enhanceBody s num total := by
    unfold enhanceTranscript
    rw [if_neg (by omega)]
  have hl : lstripChars s.data = s.data.dropWhile isPySpace := rfl
  have hd := enhanceBody_data s num total
  have hslen : ∀ t : String, t.length = t.data.length := fun _ => rfl
  rw [he, hl]
  refine ⟨hd, ?_, ?_, ?_⟩
  · by_cases hemp : (s.data.dropWhile isPySpace).isEmpty = true
    · have hnil : s.data.dropWhile isPySpace = [] := List.isEmpty_iff.mp hemp
      have : stripChars s.data = [] := by
        unfold stripChars lstripChars
        rw [hnil]
        rfl
      rw [this]
      exact List.nil_prefix
    · have hpre : stripChars s.data <+: s.data.dropWhile isPySpace :=
        rstripChars_prefix_self _
      rw [hd, if_neg hemp]
      exact hpre.trans (List.prefix_append _ _)
  · rw [hd]
    by_cases hemp : (s.data.dropWhile isPySpace).isEmpty = true
    · rw [if_pos hemp]
    · rw [if_neg hemp]
      have : s.data.dropWhile isPySpace ++ ('\n' :: '\n' :: (bandFiller num total).data) =
          (s.data.dropWhile isPySpace ++ ['\n', '\n']) ++ (bandFiller num total).data := by
        simp
      rw [this]
      exact List.suffix_append _ _
  · rw [hslen, hslen, hd]
    by_cases hemp : (s.data.dropWhile isPySpace).isEmpty = true
    · rw [if_pos hemp]
    · rw [if_neg hemp]
      simp only [List.length_append, List.length_cons]
      omega

/-- C2 (witness): a 5-character narration against a 1000-character minimum
on slide 2 of 3 (the middle band). -/
theorem c2_enhance_once_witness :
    ("hello" : String).length < 1000 ∧
    ((enhanceTranscript 1000 ("hello") 2 3).data =
      (if (lstripChars ("hello" : String).data).isEmpty then (bandFiller 2 3).data
       else lstripChars ("hello" : String).data ++ ('\n' :: '\n' :: (bandFiller 2 3).data)) ∧
    stripChars ("hello" : String).data <+: (enhanceTranscript 1000 ("hello") 2 3).data ∧
    (bandFiller 2 3).data <:+ (enhanceTranscript 1000 ("hello") 2 3).data ∧
    (bandFiller 2 3).length ≤ (enhanceTranscript 1000 ("hello") 2 3).length) :=
  ⟨by decide, c2_enhance_once 1000 ("hello") 2 3 (by decide)⟩

/-- C6 (counterexample): a request supplying both a preset voice id and a
complete clone reference is accepted, not rejected — `_prepare_request`
checks the clone pair first, attaches it, and silently ignores the
`reference_id`, so "supplying both simultaneously is a usage error" fails. -/
theorem c6_counterexample :
    prepareRequest ("hi") (some ("ref.wav")) (some ("ref text")) (some ("中文女"))
        (fun _ => some ("QUJD")) =
      .ok ⟨"hi", some [("QUJD", "ref text")], none⟩ := by
  rfl

/-- C6 (amended): a request with neither a preset voice id nor a complete
clone reference raises `ValueError` before any remote call is issued (the
request trace of all retry attempts stays empty); a request supplying a
complete clone reference — with or without a simultaneous preset id — is
accepted, the clone reference takes precedence, and `reference_id` is left
unset on the outgoing request. -/
theorem c6_exactly_one_validation (text : String)
    (a t i : Option String) (rd : String → Option String)
    (post : SpeechRequest → Except String Unit) :
    (truthyO i = false → (truthyO a && truthyO t) = false →
      synthesizeRetry text a t i rd post =
        ([], .error (.valueError
          ("Either reference_id or both reference_audio_path and reference_text must be provided")))) ∧
    (truthyO a = true → truthyO t = true →
      ∀ b64, rd (a.getD ("")) = some b64 →
        prepareRequest text a t i rd = .ok ⟨text, some [(b64, t.getD (""))], none⟩) := by
  constructor
  · intro hi hat
    unfold synthesizeRetry synthesizeOnce prepareRequest
    rw [if_pos (by rw [hi, hat]; rfl)]
    rfl
  · intro ha ht b64 hb
    unfold prepareRequest
    rw [if_neg (by rw [ha, ht]; simp), if_pos (by rw [ha, ht]; rfl), hb]

/-- C6 (witness): the neither case at concrete arguments, and the both case
with a readable reference audio file. -/
theorem c6_exactly_one_validation_witness :
    (synthesizeRetry ("x") none none none (fun _ => none) (fun _ => .ok ()) =
      ([], .error (.valueError
        ("Either reference_id or both reference_audio_path and reference_text must be provided")))) ∧
    (prepareRequest ("hi") (some ("ref.wav")) (some ("ref text")) (some ("中文女"))
        (fun _ => some ("QUJD")) =
      .ok ⟨"hi", some [("QUJD", "ref text")], none⟩) :=
  ⟨(c6_exactly_one_validation ("x") none none none (fun _ => none)
      (fun _ => .ok ())).1 rfl rfl,
   (c6_exactly_one_validation ("hi") (some ("ref.wav")) (some ("ref text"))
      (some ("中文女")) (fun _ => some ("QUJD")) (fun _ => .ok ())).2 rfl rfl
      ("QUJD") rfl⟩

/-- C7 (confirmed): when voice cloning is enabled but the reference audio
path or reference text is absent (or empty), the speech stage warns, the
clone flag is dropped, and every slide's synthesize call uses the preset
voice of the configuration; the stage itself never fails for this reason. -/
theorem c7_voice_clone_fallback (c : PipelineConfig) (ts : List Narr)
    (h1 : c.use_voice_clone = true)
    (h2 : truthyO c.reference_audio_path = false ∨ truthyO c.reference_text = false) :
    pipelineCloneWarning c = true ∧ pipelineUseClone c = false ∧
    generateSpeechRequests c ts = ts.map (fun _ => .preset c.voice_id) := by
  have hcond : (!truthyO c.reference_audio_path || !truthyO c.reference_text) = true := by
    rcases h2 with h | h <;> simp [h]
  have huc : pipelineUseClone c = false := by
    unfold pipelineUseClone
    rw [h1, hcond]
    simp
  refine ⟨?_, huc, ?_⟩
  · unfold pipelineCloneWarning
    rw [h1, hcond]
    rfl
  · unfold generateSpeechRequests
    rw [huc]
    simp

/-- C7 (witness): the voice-clone preset configuration (cloning requested,
no reference material) over a one-slide transcript list. -/
theorem c7_voice_clone_fallback_witness :
    ({ use_voice_clone := true } : PipelineConfig).use_voice_clone = true ∧
    (pipelineCloneWarning { use_voice_clone := true } = true ∧
     pipelineUseClone { use_voice_clone := true } = false ∧
     generateSpeechRequests { use_voice_clone := true }
        ([⟨.int 1, .str ("a")⟩] : List Narr) =
       ([⟨.int 1, .str ("a")⟩] : List Narr).map
         (fun _ => .preset ({ use_voice_clone := true } : PipelineConfig).voice_id)) :=
  ⟨rfl, c7_voice_clone_fallback { use_voice_clone := true }
    ([⟨.int 1, .str ("a")⟩] : List Narr) rfl (Or.inl rfl)⟩

/-- C8 (confirmed): for input lists of unequal lengths the compositor
raises the count-mismatch `ValueError` with an empty ffmpeg-call trace: no
segment is encoded, nothing is concatenated, and no output is produced. -/
theorem c8_mismatch_rejected {α β : Type} (images : List α) (audio : List β)
    (dur : β → ℚ) (fadeIn fadeOut : Bool) (encOk : Nat → Bool) (concatOk : Bool)
    (h : images.length ≠ audio.length) :
    videoSynthesize images audio dur fadeIn fadeOut encOk concatOk =
      ([], .error ("Number of images (" ++ toString images.length ++
        ") must match number of audio files (" ++ toString audio.length ++ ")")) := by
  unfold videoSynthesize
  rw [if_pos]
  unfold countMismatch
  exact bne_iff_ne.mpr h

/-- C8 (witness): two images against one audio clip. -/
theorem c8_mismatch_rejected_witness :
    ([0, 1] : List Nat).length ≠ ([true] : List Bool).length ∧
    videoSynthesize ([0, 1] : List Nat) ([true] : List Bool) (fun _ => 5)
        true true (fun _ => true) true =
      ([], .error ("Number of images (" ++ toString ([0, 1] : List Nat).length ++
        ") must match number of audio files (" ++
        toString ([true] : List Bool).length ++ ")")) :=
  ⟨by decide,
   c8_mismatch_rejected ([0, 1] : List Nat) ([true] : List Bool) (fun _ => 5)
     true true (fun _ => true) true (by decide)⟩

/-- C9 (confirmed): `PipelineConfig.validate` succeeds exactly when every
enumerated option lies in its stated range, and `run_pipeline.main` returns
before constructing the pipeline whenever validation fails on the effective
configuration, so no stage ever runs. -/
theorem c9_validate_iff (c : PipelineConfig) (vc : Bool) (ra rt : Option String) :
    (c.validate = true ↔
      (72 ≤ c.ppt_dpi ∧ c.ppt_dpi ≤ 600 ∧
       100 ≤ c.max_tokens ∧ c.max_tokens ≤ 640000 ∧
       0 ≤ c.temperature ∧ c.temperature ≤ 1 ∧
       c.transcript_style ∈ validStyles ∧
       c.voice_id ∈ validVoices ∧
       1 / 2 ≤ c.speech_speed ∧ c.speech_speed ≤ 2 ∧
       0 ≤ c.speech_volume ∧ c.speech_volume ≤ 2 ∧
       -20 ≤ c.speech_pitch ∧ c.speech_pitch ≤ 20 ∧
       1 ≤ c.video_fps ∧ c.video_fps ≤ 60 ∧
       320 ≤ c.video_resolution.1 ∧ 240 ≤ c.video_resolution.2 ∧
       0 ≤ c.transition_duration ∧ c.transition_duration ≤ 5 ∧
       1 ≤ c.batch_size ∧ c.batch_size ≤ 50)) ∧
    ((mainEffectiveConfig c vc ra rt).validate = false →
      runPipelineMain c vc ra rt ≠ .runStarted) := by
  constructor
  · unfold PipelineConfig.validate
    rw [Bool.not_eq_true']
    simp only [Bool.or_eq_false_iff, decide_eq_false_iff_not, Bool.not_eq_false',
      List.contains, List.elem_iff, not_or, not_lt]
    tauto
  · intro hv hrun
    simp only [runPipelineMain] at hrun
    split at hrun
    · exact MainOutcome.noConfusion hrun
    · split at hrun
      · exact MainOutcome.noConfusion hrun
      · rename_i hcond
        rw [hv] at hcond
        simp at hcond

/-- C9 (witness): a configuration with an out-of-range DPI is rejected and
the run never starts. -/
theorem c9_validate_iff_witness :
    ({ ppt_dpi := 1000, temperature := 1, speech_speed := 1, speech_volume := 1,
       transition_duration := 1 } : PipelineConfig).validate = false ∧
    runPipelineMain
      { ppt_dpi := 1000, temperature := 1, speech_speed := 1, speech_volume := 1,
        transition_duration := 1 } false none none ≠ .runStarted :=
  ⟨by decide,
   (c9_validate_iff
     { ppt_dpi := 1000, temperature := 1, speech_speed := 1, speech_volume := 1,
       transition_duration := 1 } false none none).2 (by decide)⟩

/-- C10 (confirmed, implicit claim): on the pipeline path the compositor is
always handed exactly the first `len(audio_files)` slide images, where the
audio list keeps only the positions whose synthesis produced a file, in
order.  The equal-length precondition of the compositor therefore always
holds (its mismatch guard passes), and when synthesis fails for some slide
`k < N` the later slides' audio is paired with earlier slides' images while
the trailing images are silently dropped instead of aborting. -/
theorem c10_pipeline_alignment {α : Type} (slides : List α)
    (jloads : String → Option PyJson) (batchedAt : Nat → Option String)
    (singlesAt : Nat → Nat → Option String) (minLen bs : Nat) (ok : Nat → Bool)
    (hbs : 1 ≤ bs) :
    (pipelineVideoArgs slides jloads batchedAt singlesAt minLen bs ok).1.length =
      (pipelineVideoArgs slides jloads batchedAt singlesAt minLen bs ok).2.length ∧
    (pipelineVideoArgs slides jloads batchedAt singlesAt minLen bs ok).1 =
      slides.take
        (pipelineVideoArgs slides jloads batchedAt singlesAt minLen bs ok).2.length ∧
    countMismatch (pipelineVideoArgs slides jloads batchedAt singlesAt minLen bs ok).1
      (pipelineVideoArgs slides jloads batchedAt singlesAt minLen bs ok).2 = false := by
  have hle : ((pipelineTranscripts jloads batchedAt singlesAt minLen bs
      slides.length).enum.filter (fun p => ok p.1)).length ≤ slides.length := by
    have h1 := List.length_filter_le (fun p => ok p.1)
      (pipelineTranscripts jloads batchedAt singlesAt minLen bs slides.length).enum
    have h2 : (pipelineTranscripts jloads batchedAt singlesAt minLen bs
        slides.length).enum.length = slides.length := by
      rw [List.enum_length]
      exact pipelineTranscripts_length jloads batchedAt singlesAt minLen bs
        slides.length hbs
    omega
  have hfst : (pipelineVideoArgs slides jloads batchedAt singlesAt minLen bs ok).1 =
      slides.take ((pipelineTranscripts jloads batchedAt singlesAt minLen bs
        slides.length).enum.filter (fun p => ok p.1)).length := rfl
  have hsnd : (pipelineVideoArgs slides jloads batchedAt singlesAt minLen bs ok).2 =
      (pipelineTranscripts jloads batchedAt singlesAt minLen bs
        slides.length).enum.filter (fun p => ok p.1) := rfl
  have hlen : (pipelineVideoArgs slides jloads batchedAt singlesAt minLen bs ok).1.length =
      (pipelineVideoArgs slides jloads batchedAt singlesAt minLen bs ok).2.length := by
    rw [hfst, hsnd, List.length_take]
    exact Nat.min_eq_left hle
  refine ⟨hlen, ?_, ?_⟩
  · rw [hfst, hsnd]
  · unfold countMismatch
    rw [hlen]
    simp

/-- C10 (witness): a 3-slide deck whose second slide's audio synthesis
fails: two images are passed, paired with the two surviving audio files,
and the mismatch guard passes. -/
theorem c10_pipeline_alignment_witness :
    1 ≤ 5 ∧
    ((pipelineVideoArgs ([10, 20, 30] : List Nat) (fun _ => none)
        (fun _ => some ("x")) (fun _ _ => none) 200 5 (fun i => !(i == 1))).1.length =
      (pipelineVideoArgs ([10, 20, 30] : List Nat) (fun _ => none)
        (fun _ => some ("x")) (fun _ _ => none) 200 5 (fun i => !(i == 1))).2.length ∧
    (pipelineVideoArgs ([10, 20, 30] : List Nat) (fun _ => none)
        (fun _ => some ("x")) (fun _ _ => none) 200 5 (fun i => !(i == 1))).1 =
      ([10, 20, 30] : List Nat).take
        (pipelineVideoArgs ([10, 20, 30] : List Nat) (fun _ => none)
          (fun _ => some ("x")) (fun _ _ => none) 200 5 (fun i => !(i == 1))).2.length ∧
    countMismatch
      (pipelineVideoArgs ([10, 20, 30] : List Nat) (fun _ => none)
        (fun _ => some ("x")) (fun _ _ => none) 200 5 (fun i => !(i == 1))).1
      (pipelineVideoArgs ([10, 20, 30] : List Nat) (fun _ => none)
        (fun _ => some ("x")) (fun _ _ => none) 200 5 (fun i => !(i == 1))).2 = false) :=
  ⟨by decide,
   c10_pipeline_alignment ([10, 20, 30] : List Nat) (fun _ => none)
     (fun _ => some ("x")) (fun _ _ => none) 200 5 (fun i => !(i == 1)) (by decide)⟩
